import Mathlib

/-!
Shallow embedding of the VFD server (src/main.py and src/vfd220.py).

Pure helpers (money/name formatting, validation, parsing) are translated
directly; the stateful `VFDManager` / `VFD220` pair is modelled by explicit
state passing, with the serial device abstracted by an environment that
answers each `open_serial_port` attempt and the bytes written to the device
collected into an explicit write log.  Python floats are modelled as exact
rationals; the decimal literals exercised by the theorems below are exactly
representable, so the model and CPython agree on them.
-/

namespace VFD

/-- Python scalar values that can appear in a JSON order item
(string, int, float, None).  Floats are modelled as rationals. -/
inductive PyVal where
  | str (s : String)
  | int (n : ℤ)
  | float (q : ℚ)
  | noneV
deriving DecidableEq

/-- Numeric value of a decimal digit character. -/
def digitVal (c : Char) : ℕ := c.toNat - Char.toNat '0'

/-- The natural number denoted by a list of decimal digit characters. -/
def natOfDigits (cs : List Char) : ℕ :=
  List.foldl (fun a c => 10 * a + digitVal c) 0 cs

/-- Python `int(s)` on a string: an optional sign followed by at least one
decimal digit (whitespace padding and underscores are not modelled; no
theorem below feeds them). `none` models `ValueError`. -/
def parseIntChars : List Char → Option ℤ
  | '-' :: rest =>
      if rest.isEmpty || !rest.all Char.isDigit then none
      else some (-(natOfDigits rest : ℤ))
  | '+' :: rest =>
      if rest.isEmpty || !rest.all Char.isDigit then none
      else some (natOfDigits rest : ℤ)
  | cs =>
      if cs.isEmpty || !cs.all Char.isDigit then none
      else some (natOfDigits cs : ℤ)

/-- Unsigned part of Python `float(s)`: `digits`, `digits.`, `.digits` or
`digits.digits` (exponents, `inf`, `nan` are not modelled; no theorem below
feeds them). -/
def parseUnsignedFloat (cs : List Char) : Option ℚ :=
  let intPart := cs.takeWhile Char.isDigit
  let rest := cs.dropWhile Char.isDigit
  match rest with
  | [] => if intPart.isEmpty then none else some (natOfDigits intPart : ℚ)
  | '.' :: frac =>
      if frac.all Char.isDigit && !(intPart.isEmpty && frac.isEmpty) then
        some ((natOfDigits intPart : ℚ) + (natOfDigits frac : ℚ) / (10 ^ frac.length))
      else none
  | _ => none

/-- Python `float(s)` on a string: optional sign then an unsigned decimal
literal. `none` models `ValueError`. -/
def parseFloatChars : List Char → Option ℚ
  | '-' :: rest => (parseUnsignedFloat rest).map (fun q => -q)
  | '+' :: rest => parseUnsignedFloat rest
  | cs => parseUnsignedFloat cs

/-- Truncation toward zero, as Python `int(float)`. -/
def truncQ (q : ℚ) : ℤ := if 0 ≤ q then ⌊q⌋ else -⌊-q⌋

/-- Python `float(x)` for the scalar values above; `none` models the
`ValueError` / `TypeError` raised on failure. -/
def pyFloat : PyVal → Option ℚ
  | .str s => parseFloatChars s.data
  | .int n => some (n : ℚ)
  | .float q => some q
  | .noneV => none

/-- Python `int(x)` for the scalar values above; `none` models the
`ValueError` / `TypeError` raised on failure. -/
def pyToInt : PyVal → Option ℤ
  | .str s => parseIntChars s.data
  | .int n => some n
  | .float q => some (truncQ q)
  | .noneV => none

/-- Python `str(x)` for the scalar values above (on the float constructor it
is a stand-in: no theorem below applies it to a float). -/
def pyStr : PyVal → String
  | .str s => s
  | .int n => toString n
  | .float q => toString q
  | .noneV => "None"

/-- One order item as received from JSON: the three keys the code reads,
each possibly absent (as in a Python dict). -/
structure Item where
  name : Option PyVal
  price : Option PyVal
  quantity : Option PyVal
deriving DecidableEq

/-- The per-item checks of `validate_order_data` (src/main.py:176-189):
`name` and `price` keys present, `float(item.get('price', 0))` and
`int(item.get('quantity', 1))` both succeed. -/
def validItem (it : Item) : Bool :=
  it.name.isSome && it.price.isSome &&
  (pyFloat (it.price.getD (PyVal.int 0))).isSome &&
  (pyToInt (it.quantity.getD (PyVal.int 1))).isSome

/-- `validate_order_data` (src/main.py:171-191); the input is already a list
of dicts in this model, so the `isinstance` checks always pass. -/
def validate_order_data (data : List Item) : Bool := data.all validItem

/-- Round half to even, the rounding CPython's `format(value, ',.0f')`
applies to an exactly representable value. -/
def roundHalfEven (q : ℚ) : ℤ :=
  if q - (⌊q⌋ : ℚ) < 1 / 2 then ⌊q⌋
  else if 1 / 2 < q - (⌊q⌋ : ℚ) then ⌊q⌋ + 1
  else if ⌊q⌋ % 2 = 0 then ⌊q⌋ else ⌊q⌋ + 1

/-- Insert a separator every three characters counting from the head
(used on the reversed digit string). -/
def group3 : List Char → List Char
  | a :: b :: c :: d :: rest => a :: b :: c :: ' ' :: group3 (d :: rest)
  | l => l

/-- `VFDManager._format_money` (src/main.py:150-153):
`f"{value:,.0f}".replace(',', ' ')` — round to integer, group digits in
threes with a space separator. -/
def format_money (value : ℚ) : String :=
  let n := roundHalfEven value
  let digits := (toString n.natAbs).data
  let grouped := String.mk (group3 digits.reverse).reverse
  if n < 0 then "-" ++ grouped else grouped

/-- Python `s[:w]` (character slicing). -/
def pyTrunc (s : String) (w : ℕ) : String := String.mk (s.data.take w)

/-- Python `s.ljust(w)`: right-pad with spaces up to width `w`, never
truncating (`' ' * negative` is empty). -/
def pyLjust (s : String) (w : ℕ) : String :=
  s ++ String.mk (List.replicate (w - s.length) ' ')

/-- `VFDManager._format_name` (src/main.py:155-160). -/
def format_name (name : String) : String :=
  if 7 ≤ name.length then pyTrunc name 7 else pyLjust name 5

/-- An open serial handle: whether `is_open` holds and whether the
`in_waiting` liveness probe succeeds (false models it raising). -/
structure Serial where
  isOpen : Bool
  responsive : Bool
deriving DecidableEq

/-- The device-side state of `VFD220` (src/vfd220.py:44-62): the optional
serial handle and the configuration loaded at construction. -/
structure VFD220St where
  ser : Option Serial
  baud_rates : List ℕ
  display_width : ℕ
  display_height : ℕ
deriving DecidableEq

/-- The environment answering each `open_serial_port(port, baud)` attempt
(src/vfd220.py:64-78): `none` models the `SerialException` path that
returns `None`. -/
structure Env where
  openResult : ℕ → Option Serial

/-- `VFD220.connect`'s loop over the candidate baud rates
(src/vfd220.py:82-91): `self.ser` is reassigned on every attempt, the
first successful open returns `True`, exhaustion returns `False`. -/
def connectLoop (env : Env) (v : VFD220St) : List ℕ → VFD220St × Bool
  | [] => (v, false)
  | b :: rest =>
      match env.openResult b with
      | some s => ({ v with ser := some s }, true)
      | none => connectLoop env { v with ser := none } rest

/-- `VFD220.connect` (src/vfd220.py:80-91). -/
def connect (env : Env) (v : VFD220St) : VFD220St × Bool :=
  connectLoop env v v.baud_rates

/-- The baud rates `connect` actually attempts, in order (one
`open_serial_port` call per entry). -/
def connectAttempts (env : Env) : List ℕ → List ℕ
  | [] => []
  | b :: rest =>
      match env.openResult b with
      | some _ => [b]
      | none => b :: connectAttempts env rest

/-- `VFD220.is_connected` (src/vfd220.py:93-103): the handle exists, is
open, and the `in_waiting` probe does not raise. -/
def is_connected (v : VFD220St) : Bool :=
  match v.ser with
  | some s => s.isOpen && s.responsive
  | none => false

/-- `VFD220.send_text` (src/vfd220.py:111-120), as the list of strings
written to the device: nothing without a handle; otherwise the message
right-padded with `' ' * (display_width - len(message))` (empty padding
when the message is longer than the display). -/
def send_text (v : VFD220St) (message : String) : List String :=
  match v.ser with
  | none => []
  | some _ => [pyLjust message v.display_width]

/-- `VFD220.clear_display` (src/vfd220.py:161-171), as the strings written:
the single clear byte `\x0C`. -/
def clear_display (v : VFD220St) : List String :=
  match v.ser with
  | none => []
  | some _ => ["\x0C"]

/-- The pure layout step of `VFD220.send_multiline_text`
(src/vfd220.py:143-151): keep the last `display_height` lines
(`lines[-h:]`, which keeps everything when `h = 0`), truncate each kept
line to `display_width`, pad short lines, and fill missing rows with
all-space lines. -/
def pyTakeLast (h : ℕ) (xs : List String) : List String :=
  if h = 0 then xs else xs.drop (xs.length - h)

/-- The `display_lines` built by `VFD220.send_multiline_text`
(src/vfd220.py:143-151). -/
def multilineLayout (width height : ℕ) (lines : List String) : List String :=
  let ls := pyTakeLast height lines
  (List.range height).map (fun i =>
    if i < ls.length then pyLjust (pyTrunc (ls.getD i "") width) width
    else String.mk (List.replicate width ' '))

/-- `VFD220.send_multiline_text` (src/vfd220.py:136-159), as the strings
written: a clear, then each laid-out line through `send_text`. -/
def send_multiline_text (v : VFD220St) (lines : List String) : List String :=
  match v.ser with
  | none => []
  | some _ =>
      clear_display v ++
        ((multilineLayout v.display_width v.display_height lines).map
          (fun m => send_text v m)).flatten

/-- The session-manager state of `VFDManager` (src/main.py:50-54): the
owned `VFD220` and the `_connected` flag.  The session lock serializes the
operations below; they are modelled as sequential state transformers. -/
structure Manager where
  vfd : VFD220St
  connected : Bool
deriving DecidableEq

/-- `VFDManager._connect` (src/main.py:56-68): only acts when
`_connected` is false; the exception paths also leave `_connected` false,
like a failed `connect`. -/
def mgr_connect (env : Env) (m : Manager) : Manager :=
  if m.connected then m
  else
    let r := connect env m.vfd
    { vfd := r.1, connected := r.2 }

/-- `VFDManager._ensure_connection` (src/main.py:70-74). -/
def ensure_connection (env : Env) (m : Manager) : Manager :=
  if is_connected m.vfd then m
  else mgr_connect env { vfd := m.vfd, connected := false }

/-- Outcome of a manager operation: the new manager state, the returned
bool, and the strings written to the device during it. -/
structure OpResult where
  mgr : Manager
  ok : Bool
  writes : List String
deriving DecidableEq

/-- src/main.py:10. -/
def WELCOME_MESSAGE : String := " CAISSE ILO MARKET  Pret a vous servir !"

/-- `VFDManager.display_welcome` (src/main.py:91-104).  `clear_display`
and `send_text` swallow their own exceptions (src/vfd220.py:119,170), so
the `except` branch of `display_welcome` is unreachable and it returns
`True` whenever `_connected` holds after `_ensure_connection`. -/
def display_welcome (env : Env) (m : Manager) : OpResult :=
  let m1 := ensure_connection env m
  if m1.connected then
    { mgr := m1, ok := true,
      writes := clear_display m1.vfd ++ send_text m1.vfd WELCOME_MESSAGE }
  else { mgr := m1, ok := false, writes := [] }

/-- The per-item extraction of `VFDManager.display_order`
(src/main.py:122-125): `str(item.get("name", "Unknown"))`,
`float(item.get('price', 0))`, `int(item.get('quantity', 1))`; `none`
models the `ValueError` the numeric conversions can raise. -/
def parseItem (it : Item) : Option (String × ℚ × ℤ) :=
  match pyFloat (it.price.getD (PyVal.int 0)),
        pyToInt (it.quantity.getD (PyVal.int 1)) with
  | some p, some q => some (pyStr (it.name.getD (PyVal.str "Unknown")), p, q)
  | _, _ => none

/-- The running `total` of `VFDManager.display_order` (src/main.py:120-127):
`total = 0`, then `total += price * quantity` per item. -/
def orderTotal (parsed : List (String × ℚ × ℤ)) : ℚ :=
  parsed.foldl (fun a x => a + x.2.1 * (x.2.2 : ℚ)) 0

/-- The `lines` list built by `VFDManager.display_order`
(src/main.py:119-135): one `f"{formatted_name}: {formatted_price} Ar"`
per item, then `f"TOTAL = {total_formatted} Ar"`. -/
def renderLines (parsed : List (String × ℚ × ℤ)) : List String :=
  parsed.map (fun x => format_name x.1 ++ ": " ++ format_money (x.2.1 * (x.2.2 : ℚ)) ++ " Ar")
    ++ ["TOTAL = " ++ format_money (orderTotal parsed) ++ " Ar"]

/-- The item lines and total line `display_order` would render for an
item list, `none` when a numeric conversion fails. -/
def orderLines (items : List Item) : Option (List String) :=
  (items.mapM parseItem).map renderLines

/-- `VFDManager.display_order` (src/main.py:106-143).  The initial
`clear_display` (line 117) precedes the parsing loop, so a `ValueError`
mid-loop leaves that clear as the only write and the `except` branch marks
the manager disconnected; on success `send_multiline_text` performs its
own clear and the line writes. -/
def display_order (env : Env) (m : Manager) (items : List Item) : OpResult :=
  if items.isEmpty then { mgr := m, ok := false, writes := [] }
  else
    let m1 := ensure_connection env m
    if m1.connected then
      match items.mapM parseItem with
      | none =>
          { mgr := { vfd := m1.vfd, connected := false }, ok := false,
            writes := clear_display m1.vfd }
      | some parsed =>
          { mgr := m1, ok := true,
            writes := clear_display m1.vfd ++
              send_multiline_text m1.vfd (renderLines parsed) }
    else { mgr := m1, ok := false, writes := [] }

/-- Result of one run of the display thread: the global `orders` list
(src/main.py:165) after the run, plus the manager outcome. -/
structure ThreadResult where
  orders : List Item
  mgr : Manager
  ok : Bool
  writes : List String
deriving DecidableEq

/-- `display_order_thread` (src/main.py:193-211): `orders.clear()` then
`orders.extend(order)` happen before `vfd_manager.display_order(order)`
is attempted, so the global snapshot is replaced unconditionally. -/
def display_order_thread (env : Env) (m : Manager) (_prevOrders order : List Item) :
    ThreadResult :=
  let r := display_order env m order
  { orders := order, mgr := r.mgr, ok := r.ok, writes := r.writes }

/-- `display_order_on_vfd` (src/main.py:213-242): reject on failed
validation before any device interaction, otherwise run the display
thread (modelled synchronously) and return `True` for the started
thread.  The second component is the function's return value. -/
def display_order_on_vfd (env : Env) (m : Manager) (prevOrders order : List Item) :
    ThreadResult × Bool :=
  if validate_order_data order then
    (display_order_thread env m prevOrders order, true)
  else
    ({ orders := prevOrders, mgr := m, ok := false, writes := [] }, false)

/-- Modelled from the spec's words (§3 / claim C3): the total obtained by
rounding each item's `unitPrice * quantity` to the nearest currency unit
before summation.  Used only to compare against the code's total. -/
def specPerItemRoundedTotal (parsed : List (String × ℚ × ℤ)) : ℤ :=
  (parsed.map (fun x => round (x.2.1 * (x.2.2 : ℚ)))).sum

/-- Modelled from the spec's words (claim C3): the total line the claim
predicts, with per-item rounding before summation. -/
def specTotalLine (parsed : List (String × ℚ × ℤ)) : String :=
  "TOTAL = " ++ format_money ((specPerItemRoundedTotal parsed : ℤ) : ℚ) ++ " Ar"

/-- Concrete fixture: the spec's Bread example item. -/
def itemA : Item :=
  { name := some (PyVal.str "Bread"), price := some (PyVal.str "2500"),
    quantity := some (PyVal.str "2") }

/-- Concrete fixture: the spec's Milk example item. -/
def itemB : Item :=
  { name := some (PyVal.str "Milk"), price := some (PyVal.str "1200"),
    quantity := some (PyVal.str "3") }

/-- Concrete fixture: an environment in which every open attempt fails. -/
def envDown : Env := ⟨fun _ => none⟩

/-- Concrete fixture: a disconnected manager over a dead port. -/
def mgrDown : Manager :=
  { vfd := { ser := none, baud_rates := [9600], display_width := 20, display_height := 2 },
    connected := false }

/-- Concrete fixture: a live 20x2 device handle. -/
def v20 : VFD220St :=
  { ser := some { isOpen := true, responsive := true }, baud_rates := [9600],
    display_width := 20, display_height := 2 }

/-- Concrete fixture: an item with a negative price and a zero quantity. -/
def itNeg : Item :=
  { name := some (PyVal.str "X"), price := some (PyVal.str "-5"),
    quantity := some (PyVal.str "0") }

/-- Concrete fixture: an item whose price does not parse as a number. -/
def itBad : Item :=
  { name := some (PyVal.str "X"), price := some (PyVal.str "abc"), quantity := none }

/-- Concrete fixture: an item without a quantity key. -/
def itEgg : Item :=
  { name := some (PyVal.str "Egg"), price := some (PyVal.str "700"), quantity := none }

/-- Concrete fixture: an item with a fractional price (a JSON number `0.4`
arrives as a Python float) and quantity 1. -/
def itFracA : Item :=
  { name := some (PyVal.str "A"), price := some (PyVal.float (2 / 5)),
    quantity := some (PyVal.int 1) }

/-- Concrete fixture: second fractional-price item. -/
def itFracB : Item :=
  { name := some (PyVal.str "B"), price := some (PyVal.float (2 / 5)),
    quantity := some (PyVal.int 1) }

/- ------------------------------------------------------------------ -/
/- Helper lemmas shared by the claim theorems.                         -/
/- ------------------------------------------------------------------ -/

theorem roundHalfEven_intCast (n : ℤ) : roundHalfEven (n : ℚ) = n := by
  simp [roundHalfEven]

theorem format_money_eval (q : ℚ) (n : ℤ) (s : String) (h : q = (n : ℚ))
    (hs : format_money ((n : ℤ) : ℚ) = s) : format_money q = s := by
  rw [h, hs]

theorem foldl_total (l : List (String × ℚ × ℤ)) :
    ∀ a : ℚ, l.foldl (fun acc x => acc + x.2.1 * (x.2.2 : ℚ)) a
      = a + (l.map (fun x => x.2.1 * (x.2.2 : ℚ))).sum := by
  induction l with
  | nil => intro a; simp
  | cons x xs ih => intro a; simp [List.foldl_cons, ih, add_assoc]

theorem orderTotal_eq_sum (l : List (String × ℚ × ℤ)) :
    orderTotal l = (l.map (fun x => x.2.1 * (x.2.2 : ℚ))).sum := by
  rw [orderTotal, foldl_total]; simp

theorem getLast?_append_singleton (l : List String) (a : String) :
    (l ++ [a]).getLast? = some a := List.getLast?_concat l

theorem pyLjust_length (s : String) (w : ℕ) :
    (pyLjust s w).length = max s.length w := by
  have h : (String.mk (List.replicate (w - s.length) ' ')).length = w - s.length := by
    show (List.replicate (w - s.length) ' ').length = w - s.length
    exact List.length_replicate _ _
  rw [pyLjust, String.length_append, h]
  omega

theorem pyTrunc_length (s : String) (w : ℕ) :
    (pyTrunc s w).length = min w s.length := by
  show (s.data.take w).length = min w s.length
  exact List.length_take _ _

theorem rangeMapIf (g : String → String) (c : String) :
    ∀ (ls : List String) (h : ℕ), ls.length ≤ h →
      (List.range h).map (fun i => if i < ls.length then g (ls.getD i "") else c)
        = ls.map g ++ List.replicate (h - ls.length) c := by
  intro ls
  induction ls with
  | nil =>
      intro h _
      simp [List.map_const']
  | cons a as ih =>
      intro h hle
      match h with
      | Nat.succ h' =>
        rw [List.range_succ_eq_map, List.map_cons, List.map_map]
        have h0 : (if 0 < (a :: as).length then g ((a :: as).getD 0 "") else c) = g a := by
          simp
        rw [h0]
        have hfun : ((fun i => if i < (a :: as).length then g ((a :: as).getD i "") else c) ∘ Nat.succ)
            = (fun i => if i < as.length then g (as.getD i "") else c) := by
          funext i
          simp [Nat.succ_lt_succ_iff]
        rw [hfun, ih h' (by simpa using hle)]
        simp [Nat.succ_sub_succ]

theorem multilineLayout_structure (width height : ℕ) (lines : List String)
    (h : 0 < height) :
    multilineLayout width height lines =
      (lines.drop (lines.length - height)).map (fun l => pyLjust (pyTrunc l width) width)
        ++ List.replicate (height - lines.length)
            (String.mk (List.replicate width ' ')) := by
  have hls : pyTakeLast height lines = lines.drop (lines.length - height) := by
    rw [pyTakeLast, if_neg (by omega)]
  have hlen : (lines.drop (lines.length - height)).length ≤ height := by
    rw [List.length_drop]; omega
  have heq := rangeMapIf (fun l => pyLjust (pyTrunc l width) width)
      (String.mk (List.replicate width ' ')) (lines.drop (lines.length - height)) height hlen
  have hcount : height - (lines.drop (lines.length - height)).length = height - lines.length := by
    rw [List.length_drop]; omega
  rw [hcount] at heq
  simp only [multilineLayout, hls]
  exact heq

/- ------------------------------------------------------------------ -/
/- Claim C1.                                                           -/
/- ------------------------------------------------------------------ -/

/-- C1, counterexample: with the device down, displaying `[itemB]` after
`[itemA]` fails (`ok = false`), yet the global `orders` snapshot now holds
the failed order `[itemB]`, not the previous `[itemA]` — the claim that a
failed render leaves the snapshot unchanged is false of the code. -/
theorem C1_counterexample :
    (display_order_thread envDown mgrDown [itemA] [itemB]).ok = false ∧
    (display_order_thread envDown mgrDown [itemA] [itemB]).orders = [itemB] ∧
    [itemB] ≠ [itemA] := by
  refine ⟨by decide, by decide, by decide⟩

/-- C1, amended: `display_order_thread` replaces the global `orders`
snapshot with the submitted order unconditionally, before the render is
attempted, so after any run — successful or failed — the snapshot holds
the submitted order; the run's outcome is exactly `display_order`'s. -/
theorem C1_snapshot_replaced_unconditionally (env : Env) (m : Manager)
    (prev order : List Item) :
    (display_order_thread env m prev order).orders = order ∧
    (display_order_thread env m prev order).ok = (display_order env m order).ok := by
  exact ⟨rfl, rfl⟩

/- ------------------------------------------------------------------ -/
/- Claim C2.                                                           -/
/- ------------------------------------------------------------------ -/

/-- C2, counterexample: an item with price `"-5"` (negative) and quantity
`"0"` (not positive) passes `validate_order_data`, and the submission is
accepted (`display_order_on_vfd` returns `True`), contradicting the claim
that such items cause rejection. -/
theorem C2_counterexample :
    validate_order_data [itNeg] = true ∧
    pyFloat (itNeg.price.getD (PyVal.int 0)) = some (-5 : ℚ) ∧
    ((-5 : ℚ) < 0) ∧
    pyToInt (itNeg.quantity.getD (PyVal.int 1)) = some 0 ∧
    (display_order_on_vfd envDown mgrDown [] [itNeg]).2 = true := by
  refine ⟨by decide, by decide, by decide, by decide, by decide⟩

/-- C2, amended: validation accepts a submission iff every item has the
`name` and `price` keys, a `float`-parseable price and an `int`-parseable
quantity (an absent quantity defaults to 1); it checks neither the price's
sign nor the quantity's positivity.  A submission failing these checks is
rejected with no device write. -/
theorem C2_validation_characterization (data : List Item) (env : Env)
    (m : Manager) (prev : List Item) :
    (validate_order_data data = true ↔
      ∀ it ∈ data, it.name.isSome = true ∧ it.price.isSome = true ∧
        (pyFloat (it.price.getD (PyVal.int 0))).isSome = true ∧
        (pyToInt (it.quantity.getD (PyVal.int 1))).isSome = true) ∧
    (validate_order_data data = false →
      (display_order_on_vfd env m prev data).2 = false ∧
      (display_order_on_vfd env m prev data).1.writes = []) := by
  constructor
  · simp [validate_order_data, List.all_eq_true, validItem, Bool.and_eq_true, and_assoc]
  · intro h
    simp [display_order_on_vfd, h]

/- ------------------------------------------------------------------ -/
/- Claim C3.                                                           -/
/- ------------------------------------------------------------------ -/

/-- C3, counterexample: two items of price 0.4 and quantity 1.  The code
sums the unrounded products (0.8) and rounds once while formatting, so the
rendered total line is "TOTAL = 1 Ar"; the claim's rule — round each
per-item product before summation — predicts 0 + 0 = 0, "TOTAL = 0 Ar". -/
theorem C3_counterexample :
    [itFracA, itFracB].mapM parseItem
      = some [("A", (2 : ℚ) / 5, (1 : ℤ)), ("B", (2 : ℚ) / 5, (1 : ℤ))] ∧
    ((orderLines [itFracA, itFracB]).getD []).getLast? = some "TOTAL = 1 Ar" ∧
    specTotalLine [("A", (2 : ℚ) / 5, (1 : ℤ)), ("B", (2 : ℚ) / 5, (1 : ℤ))]
      = "TOTAL = 0 Ar" ∧
    ("TOTAL = 1 Ar" : String) ≠ "TOTAL = 0 Ar" := by
  have hmap : [itFracA, itFracB].mapM parseItem
      = some [("A", (2 : ℚ) / 5, (1 : ℤ)), ("B", (2 : ℚ) / 5, (1 : ℤ))] := rfl
  refine ⟨hmap, ?_, ?_, by decide⟩
  · have hlines : (orderLines [itFracA, itFracB]).getD []
        = renderLines [("A", (2 : ℚ) / 5, (1 : ℤ)), ("B", (2 : ℚ) / 5, (1 : ℤ))] := by
      rw [orderLines, hmap, Option.map_some', Option.getD_some]
    rw [hlines, renderLines, getLast?_append_singleton]
    have htot : orderTotal [("A", (2 : ℚ) / 5, (1 : ℤ)), ("B", (2 : ℚ) / 5, (1 : ℤ))]
        = 4 / 5 := by
      simp [orderTotal]
      norm_num
    have hm : format_money ((4 : ℚ) / 5) = "1" := by
      have hr : roundHalfEven ((4 : ℚ) / 5) = 1 := by
        unfold roundHalfEven
        norm_num
      rw [format_money, hr]
      decide
    rw [htot, hm]
    decide
  · have hspec : specPerItemRoundedTotal
        [("A", (2 : ℚ) / 5, (1 : ℤ)), ("B", (2 : ℚ) / 5, (1 : ℤ))] = 0 := by
      simp [specPerItemRoundedTotal]
      norm_num
    rw [specTotalLine, hspec]
    have hm : format_money (((0 : ℤ) : ℚ)) = "0" := by
      rw [format_money, roundHalfEven_intCast]
      decide
    rw [hm]
    decide

/-- C3, amended: the rendered total line is `"TOTAL = "` followed by
`format_money` applied to the exact (unrounded) sum of the per-item
products `unitPrice * quantity`, followed by `" Ar"`; rounding to the
currency unit happens once, in the formatting of that sum.  The spec's
example (2500x2, 1200x3) still yields "TOTAL = 8 600 Ar" (see the
witness), since integer-valued products make the two rules coincide. -/
theorem C3_total_line (items : List Item) (parsed : List (String × ℚ × ℤ))
    (h : items.mapM parseItem = some parsed) :
    ((orderLines items).getD []).getLast?
      = some ("TOTAL = "
          ++ format_money ((parsed.map (fun x => x.2.1 * (x.2.2 : ℚ))).sum)
          ++ " Ar") := by
  rw [orderLines, h, Option.map_some', Option.getD_some, renderLines,
    getLast?_append_singleton, orderTotal_eq_sum]

/-- C3, witness: the spec's Bread/Milk example evaluates to
"TOTAL = 8 600 Ar" through the amended rule. -/
theorem C3_total_line_witness :
    ((orderLines [itemA, itemB]).getD []).getLast? = some "TOTAL = 8 600 Ar" := by
  have h := C3_total_line [itemA, itemB]
      [("Bread", (2500 : ℚ), (2 : ℤ)), ("Milk", (1200 : ℚ), (3 : ℤ))] (by decide)
  rw [h]
  have mt : format_money (([("Bread", (2500 : ℚ), (2 : ℤ)), ("Milk", (1200 : ℚ), (3 : ℤ))].map
      (fun x => x.2.1 * (x.2.2 : ℚ))).sum) = "8 600" := by
    apply format_money_eval _ 8600 _ (by simp; norm_num)
    rw [format_money, roundHalfEven_intCast]
    decide
  rw [mt]
  decide

/- ------------------------------------------------------------------ -/
/- Claim C4.                                                           -/
/- ------------------------------------------------------------------ -/

/-- C4: a submission containing an item whose price value does not parse
as a number fails validation, `display_order_on_vfd` returns `False`, and
no write (no clear, no text) ever reaches the device for it. -/
theorem C4_unparseable_price_no_write (env : Env) (m : Manager)
    (prev items : List Item) (it : Item) (v : PyVal)
    (hmem : it ∈ items) (hp : it.price = some v) (hun : pyFloat v = none) :
    validate_order_data items = false ∧
    (display_order_on_vfd env m prev items).2 = false ∧
    (display_order_on_vfd env m prev items).1.writes = [] := by
  have hv : validItem it = false := by
    simp [validItem, hp, hun]
  have hall : validate_order_data items = false := by
    rw [validate_order_data]
    cases hcase : items.all validItem with
    | false => rfl
    | true =>
        have := (List.all_eq_true.mp hcase) it hmem
        rw [hv] at this
        exact absurd this (by decide)
  refine ⟨hall, ?_, ?_⟩ <;> simp [display_order_on_vfd, hall]

/-- C4, witness: the concrete item with price `"abc"` is rejected with an
empty write log. -/
theorem C4_unparseable_price_no_write_witness :
    validate_order_data [itBad] = false ∧
    (display_order_on_vfd envDown mgrDown [] [itBad]).2 = false ∧
    (display_order_on_vfd envDown mgrDown [] [itBad]).1.writes = [] :=
  C4_unparseable_price_no_write envDown mgrDown [] [itBad] itBad (PyVal.str "abc")
    (by simp) rfl (by decide)

/- ------------------------------------------------------------------ -/
/- Claim C5.                                                           -/
/- ------------------------------------------------------------------ -/

/-- C5: `_format_name` returns the first 7 characters when the name is at
least 7 long, and otherwise the name right-padded with spaces up to length
5 (`ljust(5)`, a no-op on 5- and 6-character names); in particular
"Egg" ↦ "Egg  " and "Baguette" ↦ "Baguett". -/
theorem C5_format_name (name : String) :
    (7 ≤ name.length → format_name name = pyTrunc name 7) ∧
    (name.length < 7 →
      format_name name = name ++ String.mk (List.replicate (5 - name.length) ' ')) ∧
    format_name "Egg" = "Egg  " ∧
    format_name "Baguette" = "Baguett" := by
  refine ⟨fun h => by rw [format_name, if_pos h],
    fun h => by rw [format_name, if_neg (by omega)]; rfl,
    by decide, by decide⟩

/- ------------------------------------------------------------------ -/
/- Claim C6.                                                           -/
/- ------------------------------------------------------------------ -/

theorem connectLoop_all_fail (env : Env) (bs : List ℕ)
    (h : ∀ b ∈ bs, env.openResult b = none) :
    ∀ v : VFD220St, (connectLoop env v bs).2 = false := by
  induction bs with
  | nil => intro v; rfl
  | cons b rest ih =>
      intro v
      have hb : env.openResult b = none := h b (by simp)
      rw [connectLoop, hb]
      exact ih (fun x hx => h x (by simp [hx])) _

theorem connectAttempts_all_fail (env : Env) (bs : List ℕ)
    (h : ∀ b ∈ bs, env.openResult b = none) :
    connectAttempts env bs = bs := by
  induction bs with
  | nil => rfl
  | cons b rest ih =>
      have hb : env.openResult b = none := h b (by simp)
      rw [connectAttempts, hb]
      rw [ih (fun x hx => h x (by simp [hx]))]

/-- C6: when every candidate baud rate fails to open, `connect` attempts
each rate exactly once, in order, and returns `False` (the loop is a plain
finite iteration, total by construction — no unbounded retry), and the
manager's `_connect` leaves the session disconnected. -/
theorem C6_all_bauds_fail (env : Env) (m : Manager)
    (h : ∀ b ∈ m.vfd.baud_rates, env.openResult b = none)
    (hc : m.connected = false) :
    connectAttempts env m.vfd.baud_rates = m.vfd.baud_rates ∧
    (connect env m.vfd).2 = false ∧
    (mgr_connect env m).connected = false := by
  have hfail : (connect env m.vfd).2 = false :=
    connectLoop_all_fail env m.vfd.baud_rates h m.vfd
  refine ⟨connectAttempts_all_fail env m.vfd.baud_rates h, hfail, ?_⟩
  rw [mgr_connect, if_neg (by rw [hc]; exact Bool.false_ne_true)]
  exact hfail

/-- C6, witness: on the concrete dead port every open fails; the single
candidate rate is tried once and the session stays disconnected. -/
theorem C6_all_bauds_fail_witness :
    connectAttempts envDown mgrDown.vfd.baud_rates = mgrDown.vfd.baud_rates ∧
    (connect envDown mgrDown.vfd).2 = false ∧
    (mgr_connect envDown mgrDown).connected = false :=
  C6_all_bauds_fail envDown mgrDown (fun _ _ => rfl) rfl

/- ------------------------------------------------------------------ -/
/- Claim C7.                                                           -/
/- ------------------------------------------------------------------ -/

/-- C7: for every order whose item conversions succeed, the rendered lines
are exactly one line per item, in input order, of the form
`formatName(name) ++ ": " ++ formatMoney(price * quantity) ++ " Ar"`,
followed by the single final line
`"TOTAL = " ++ formatMoney(sum of the item products) ++ " Ar"`. -/
theorem C7_render_shape (items : List Item) (parsed : List (String × ℚ × ℤ))
    (h : items.mapM parseItem = some parsed) :
    orderLines items = some
      (parsed.map (fun x =>
          format_name x.1 ++ ": " ++ format_money (x.2.1 * (x.2.2 : ℚ)) ++ " Ar")
        ++ ["TOTAL = "
            ++ format_money ((parsed.map (fun x => x.2.1 * (x.2.2 : ℚ))).sum)
            ++ " Ar"]) := by
  rw [orderLines, h, Option.map_some', renderLines, orderTotal_eq_sum]

/-- C7, witness: the Bread/Milk order renders to exactly these three
lines. -/
theorem C7_render_shape_witness :
    orderLines [itemA, itemB]
      = some ["Bread: 5 000 Ar", "Milk : 3 600 Ar", "TOTAL = 8 600 Ar"] := by
  have h := C7_render_shape [itemA, itemB]
      [("Bread", (2500 : ℚ), (2 : ℤ)), ("Milk", (1200 : ℚ), (3 : ℤ))] (by decide)
  rw [h]
  have m1 : format_money ((2500 : ℚ) * ((2 : ℤ) : ℚ)) = "5 000" := by
    apply format_money_eval _ 5000 _ (by norm_num)
    rw [format_money, roundHalfEven_intCast]
    decide
  have m2 : format_money ((1200 : ℚ) * ((3 : ℤ) : ℚ)) = "3 600" := by
    apply format_money_eval _ 3600 _ (by norm_num)
    rw [format_money, roundHalfEven_intCast]
    decide
  have mt : format_money (([("Bread", (2500 : ℚ), (2 : ℤ)), ("Milk", (1200 : ℚ), (3 : ℤ))].map
      (fun x => x.2.1 * (x.2.2 : ℚ))).sum) = "8 600" := by
    apply format_money_eval _ 8600 _ (by simp; norm_num)
    rw [format_money, roundHalfEven_intCast]
    decide
  rw [mt]
  simp only [List.map_cons, List.map_nil, m1, m2]
  decide

/- ------------------------------------------------------------------ -/
/- Claim C8.                                                           -/
/- ------------------------------------------------------------------ -/

/-- C8: for a display of positive height, the multiline write emits
exactly `display_height` lines of exactly `display_width` characters:
the last `display_height` input lines (oldest dropped first), each
truncated to the width and right-padded with spaces, followed by all-space
filler lines when fewer input lines remain. -/
theorem C8_multiline_exact_shape (width height : ℕ) (lines : List String)
    (h : 0 < height) :
    (multilineLayout width height lines).length = height ∧
    (∀ l ∈ multilineLayout width height lines, l.length = width) ∧
    multilineLayout width height lines =
      (lines.drop (lines.length - height)).map
          (fun l => pyLjust (pyTrunc l width) width)
        ++ List.replicate (height - lines.length)
            (String.mk (List.replicate width ' ')) := by
  have heq := multilineLayout_structure width height lines h
  refine ⟨?_, ?_, heq⟩
  · rw [multilineLayout]
    simp
  · intro l hl
    rw [heq] at hl
    rcases List.mem_append.mp hl with hmap | hrep
    · rcases List.mem_map.mp hmap with ⟨x, _, rfl⟩
      rw [pyLjust_length, pyTrunc_length]
      omega
    · rw [List.eq_of_mem_replicate hrep]
      show (List.replicate width ' ').length = width
      exact List.length_replicate _ _

/-- C8, witness: a 4x2 display fed three lines drops the oldest, truncates
"alpha" to "alph" and pads "be" to "be  ". -/
theorem C8_multiline_exact_shape_witness :
    multilineLayout 4 2 ["old", "alpha", "be"] = ["alph", "be  "] :=
  ((C8_multiline_exact_shape 4 2 ["old", "alpha", "be"] (by decide)).2.2).trans (by decide)

/- ------------------------------------------------------------------ -/
/- Claim C9.                                                           -/
/- ------------------------------------------------------------------ -/

/-- C9, counterexample: the 40-character welcome message on the 20-column
display is written unpadded and untruncated — the written line has length
40, not `display_width` — so the claim that the written line always has
exactly `display_width` characters is false of the code. -/
theorem C9_counterexample :
    WELCOME_MESSAGE.length = 40 ∧
    v20.display_width = 20 ∧
    send_text v20 WELCOME_MESSAGE = [WELCOME_MESSAGE] ∧
    ((send_text v20 WELCOME_MESSAGE).getD 0 "").length ≠ v20.display_width := by
  refine ⟨by decide, by decide, by decide, by decide⟩

/-- C9, amended: with an open handle, `send_text` writes exactly one line,
the message right-padded with spaces; its length is the maximum of the
message length and `display_width` — exactly `display_width` when the
message fits, the unpadded excess length otherwise. -/
theorem C9_send_text_padding (v : VFD220St) (s : Serial) (msg : String)
    (h : v.ser = some s) :
    send_text v msg
      = [msg ++ String.mk (List.replicate (v.display_width - msg.length) ' ')] ∧
    ∀ l ∈ send_text v msg, l.length = max msg.length v.display_width := by
  have hw : send_text v msg = [pyLjust msg v.display_width] := by
    rw [send_text, h]
  constructor
  · rw [hw]; rfl
  · intro l hl
    rw [hw] at hl
    rw [List.mem_singleton.mp hl, pyLjust_length]

/-- C9, witness: on the 20-column display a 2-character message is padded
to exactly 20 characters. -/
theorem C9_send_text_padding_witness :
    send_text v20 "Hi" = ["Hi                  "] :=
  ((C9_send_text_padding v20 { isOpen := true, responsive := true } "Hi" rfl).1).trans
    (by decide)

/- ------------------------------------------------------------------ -/
/- Claim C10.                                                          -/
/- ------------------------------------------------------------------ -/

/-- C10: an item with no `quantity` key but with a name and a parseable
price passes validation, parses with quantity defaulted to 1, and renders
with a line total equal to its price (and an order of just that item has
that same price as its total). -/
theorem C10_missing_quantity_defaults (it : Item) (p : ℚ)
    (hq : it.quantity = none) (hn : it.name.isSome = true)
    (hpr : it.price.isSome = true)
    (hp : pyFloat (it.price.getD (PyVal.int 0)) = some p) :
    validItem it = true ∧
    parseItem it = some (pyStr (it.name.getD (PyVal.str "Unknown")), p, 1) ∧
    renderLines [(pyStr (it.name.getD (PyVal.str "Unknown")), p, 1)]
      = [format_name (pyStr (it.name.getD (PyVal.str "Unknown")))
            ++ ": " ++ format_money p ++ " Ar",
         "TOTAL = " ++ format_money p ++ " Ar"] := by
  refine ⟨?_, ?_, ?_⟩
  · simp [validItem, hn, hpr, hp, hq, pyToInt]
  · rw [parseItem, hq, hp]
    rfl
  · simp [renderLines, orderTotal]

/-- C10, witness: the quantity-less Egg item at price 700 validates,
parses with quantity 1, and renders with line total 700. -/
theorem C10_missing_quantity_defaults_witness :
    validItem itEgg = true ∧
    parseItem itEgg = some ("Egg", (700 : ℚ), (1 : ℤ)) ∧
    renderLines [("Egg", (700 : ℚ), (1 : ℤ))]
      = ["Egg  : 700 Ar", "TOTAL = 700 Ar"] := by
  have h := C10_missing_quantity_defaults itEgg 700 rfl rfl rfl (by decide)
  have hm : format_money ((700 : ℚ)) = "700" := by
    apply format_money_eval _ 700 _ (by norm_num)
    rw [format_money, roundHalfEven_intCast]
    decide
  refine ⟨h.1, h.2.1.trans (by decide), h.2.2.trans ?_⟩
  rw [hm]
  decide

end VFD
